import Mathlib

/-!
Verification of the model-gateway layer of the tribe AI engine.

This file gives a shallow embedding, in Lean, of the Python functions of
`src/backend/src/ai-engine/src` that the design document makes claims about:

* `utils/data_preprocessing.py`: `clean_text_data`
* `utils/prompt_engineering.py`: `extract_json_from_response`
* `adapters/model_adapter.py`: the error classes, `prepare_prompt`,
  `prepare_messages`, `prepare_parameters`
* `adapters/openrouter_adapter.py`: the retry loop of `generate_text` /
  `generate_chat_completion` and `handle_error`
* `services/matching_service.py`: `get_cached_result`, `cache_result`,
  `generate_cache_key`, `perform_matching`

Machine integers do not occur; Python floats used for generation parameters,
delays and timestamps are embedded as exact rationals (the operations on them
are order comparisons, min/max, addition and multiplication by integers, on
which rationals and IEEE doubles agree for the magnitudes involved; the one
float product, `context_window * 0.9`, is embedded as exact `9 * cw` against
`10 * len`, which agrees with the IEEE comparison for the configured window
sizes). Library boundaries (`json.loads`, the SHA-256 digest) are taken as
explicit function parameters, so every theorem quantifies over them.
-/

namespace TribeAI

/-! ## Python string primitives

ASCII fragments of the Python predicates used by `clean_text_data` and
`str.strip`.  The repository feeds ASCII text through these paths; the
Unicode extension of `\w` and `\s` adds further word/space characters but no
brace, bracket, backtick or colon, which is all the proofs below rely on. -/

/-- Python regex `\s` (ASCII part), also the set stripped by `str.strip()`. -/
def pyIsSpace (c : Char) : Bool :=
  c = ' ' || c = '\t' || c = '\n' || c = '\r' || c = '\x0b' || c = '\x0c'

/-- Python regex `\w` (ASCII part): letters, digits and underscore. -/
def pyIsWord (c : Char) : Bool :=
  c.isAlphanum || c = '_'

/-- Embeds `str.strip()` on a character list: drop leading and trailing whitespace. -/
def pyStripList (cs : List Char) : List Char :=
  ((cs.dropWhile pyIsSpace).reverse.dropWhile pyIsSpace).reverse

/-- Embeds `str.strip()` on a string. -/
def pyStrip (s : String) : String :=
  String.mk (pyStripList s.data)

/-- Python `a or b` for an optional string: `None` and `""` are falsy. -/
def pyOrStr (a : Option String) (b : String) : String :=
  match a with
  | none => b
  | some s => if s = "" then b else s

/-- Python `s[:k]` for a possibly negative bound `k`. -/
def pySliceTo (s : String) (k : Int) : String :=
  if 0 ≤ k then String.mk (s.data.take k.toNat)
  else String.mk (s.data.take ((s.length : Int) + k).toNat)

/-- Python `int(s)` on a decimal string: strip whitespace, optional sign,
then digits.  (Pythonic underscore group separators are not modelled; no
header in the claims uses them.)  Returns `none` where `int` raises
`ValueError`. -/
def digitsToNat (ds : List Char) : Nat :=
  ds.foldl (fun acc c => 10 * acc + (c.toNat - 48)) 0

def pyParseInt (s : String) : Option Int :=
  let cs := pyStripList s.data
  let (sign, ds) : Int × List Char :=
    match cs with
    | '-' :: rest => (-1, rest)
    | '+' :: rest => (1, rest)
    | rest => (1, rest)
  if ds = [] || ¬ ds.all Char.isDigit then none
  else some (sign * (digitsToNat ds : Int))

/-! ## `clean_text_data` (utils/data_preprocessing.py, lines 327-357)

```python
cleaned_text = re.sub(r"[^\w\s.,!?\x27\x22-]", "", text)
cleaned_text = re.sub(r"\s+", " ", cleaned_text).strip()
if lowercase: cleaned_text = cleaned_text.lower()
if max_length and len(cleaned_text) > max_length: cleaned_text = cleaned_text[:max_length]
```

The `not isinstance(text, str)` guard is enforced by the Lean type. -/

/-- The character class kept by the first substitution: word characters,
whitespace, and the punctuation `. , ! ? \x27 \x22 -`. -/
def keepChar (c : Char) : Bool :=
  pyIsWord c || pyIsSpace c ||
    (c = '.' || c = ',' || c = '!' || c = '?' || c = '\x27' || c = '\x22' || c = '-')

/-- Embeds `re.sub(r"\s+", " ", ...)`: collapse every whitespace run to one space.
The boolean records whether the previous character was whitespace. -/
def collapseSpacesAux : Bool → List Char → List Char
  | _, [] => []
  | prevSpace, c :: cs =>
    if pyIsSpace c then
      if prevSpace then collapseSpacesAux true cs
      else ' ' :: collapseSpacesAux true cs
    else c :: collapseSpacesAux false cs

def collapseSpaces (cs : List Char) : List Char :=
  collapseSpacesAux false cs

/-- Embeds `clean_text_data(text, lowercase=False, max_length=None)`. -/
def cleanTextData (text : String) (lowercase : Bool := false)
    (maxLength : Option Nat := none) : String :=
  let cs := text.data.filter keepChar
  let cs := pyStripList (collapseSpaces cs)
  let cs := if lowercase then cs.map Char.toLower else cs
  match maxLength with
  | some m => if m ≠ 0 && cs.length > m then String.mk (cs.take m) else String.mk cs
  | none => String.mk cs

theorem mem_collapseSpacesAux {c : Char} {b : Bool} {cs : List Char}
    (h : c ∈ collapseSpacesAux b cs) : c = ' ' ∨ c ∈ cs := by
  induction cs generalizing b with
  | nil => simp [collapseSpacesAux] at h
  | cons x xs ih =>
    rw [collapseSpacesAux] at h
    rcases hx : pyIsSpace x with hfalse | htrue
    · rw [hx, if_neg (by simp)] at h
      rcases List.mem_cons.mp h with h | h
      · exact Or.inr (h ▸ List.mem_cons_self _ _)
      · rcases ih h with h' | h'
        · exact Or.inl h'
        · exact Or.inr (List.mem_cons_of_mem _ h')
    · rw [hx, if_pos rfl] at h
      rcases b with _ | _
      · rw [if_neg (by simp)] at h
        rcases List.mem_cons.mp h with h | h
        · exact Or.inl h
        · rcases ih h with h' | h'
          · exact Or.inl h'
          · exact Or.inr (List.mem_cons_of_mem _ h')
      · rw [if_pos rfl] at h
        rcases ih h with h' | h'
        · exact Or.inl h'
        · exact Or.inr (List.mem_cons_of_mem _ h')

theorem mem_dropWhileChars {c : Char} {p : Char → Bool} {cs : List Char}
    (h : c ∈ cs.dropWhile p) : c ∈ cs := by
  induction cs with
  | nil => simp at h
  | cons x xs ih =>
    rw [List.dropWhile] at h
    rcases hx : p x with hfalse | htrue
    · rw [hx] at h; exact h
    · rw [hx] at h
      exact List.mem_cons_of_mem _ (ih h)

theorem mem_pyStripList {c : Char} {cs : List Char}
    (h : c ∈ pyStripList cs) : c ∈ cs := by
  unfold pyStripList at h
  rw [List.mem_reverse] at h
  have h1 := mem_dropWhileChars h
  rw [List.mem_reverse] at h1
  exact mem_dropWhileChars h1

/-- Every character of a cleaned text is in the kept class (the collapse step
introduces only spaces, which are kept). -/
theorem mem_cleanTextData {c : Char} {text : String}
    (h : c ∈ (cleanTextData text).data) : keepChar c = true := by
  unfold cleanTextData at h
  simp only at h
  have h1 : c ∈ pyStripList (collapseSpaces (text.data.filter keepChar)) := h
  have h2 := mem_pyStripList h1
  rcases mem_collapseSpacesAux h2 with h3 | h3
  · subst h3; decide
  · exact (List.mem_filter.mp h3).2

/-! ## `extract_json_from_response` (utils/prompt_engineering.py, lines 373-421)

```python
cleaned_response = clean_text_data(response)
json_pattern = r"```(?:json)?\s*([\s\S]*?)```|(\{[\s\S]*\}|\[[\s\S]*\])"
matches = re.findall(json_pattern, cleaned_response)
...
```
The regex is embedded as a direct scanner for this one pattern.  `json.loads`
is a library boundary and is passed in as a function parameter. -/

/-- Parsed JSON values (floats do not occur in the claims). -/
inductive PyJson where
  | obj (fields : List (String × PyJson))
  | arr (items : List PyJson)
  | str (s : String)
  | int (n : Int)
  | bool (b : Bool)
  | null

def pyFindGo (c : Char) : List Char → Nat → Int
  | [], _ => -1
  | x :: xs, i => if x = c then Int.ofNat i else pyFindGo c xs (i + 1)

/-- Python `s.find(c)`: index of the first occurrence, `-1` if absent. -/
def pyFind (cs : List Char) (c : Char) : Int :=
  pyFindGo c cs 0

def pyRFindGo (c : Char) : List Char → Nat → Int → Int
  | [], _, acc => acc
  | x :: xs, i, acc => pyRFindGo c xs (i + 1) (if x = c then Int.ofNat i else acc)

/-- Python `s.rfind(c)`: index of the last occurrence, `-1` if absent. -/
def pyRFind (cs : List Char) (c : Char) : Int :=
  pyRFindGo c cs 0 (-1)

/-- The backtick character. -/
def backtick : Char := '\x60'

def startsWithTriple : List Char → Bool
  | b1 :: b2 :: b3 :: _ => b1 = backtick && b2 = backtick && b3 = backtick
  | _ => false

/-- Index of the first occurrence of three consecutive backticks. -/
def firstTripleIdx : List Char → Option Nat
  | [] => none
  | c :: cs =>
    if startsWithTriple (c :: cs) then some 0
    else (firstTripleIdx cs).map (· + 1)

/-- The first regex branch at the start of `cs`: three backticks, the
optional `json` tag, greedy whitespace, the lazy captured body, and the
closing three backticks.  Returns the captured group and the remainder of
the input after the match. -/
def matchFenceAt (cs : List Char) : Option (List Char × List Char) :=
  if startsWithTriple cs then
    let rest0 := cs.drop 3
    let rest1 := if rest0.take 4 = ['j', 's', 'o', 'n'] then rest0.drop 4 else rest0
    match firstTripleIdx rest1 with
    | none => none
    | some t =>
      let ws := (rest1.takeWhile pyIsSpace).length
      some ((rest1.take t).drop ws, rest1.drop (t + 3))
  else none

/-- The second regex branch at the start of `cs`:
`\{[\s\S]*\}|\[[\s\S]*\]` (greedy, so the match extends to the last closing
delimiter in the input). -/
def matchBraceAt (cs : List Char) : Option (List Char × List Char) :=
  match cs with
  | c :: _ =>
    if c = '\x7b' then
      let j := pyRFind cs '\x7d'
      if 1 ≤ j then some (cs.take (j.toNat + 1), cs.drop (j.toNat + 1)) else none
    else if c = '\x5b' then
      let j := pyRFind cs '\x5d'
      if 1 ≤ j then some (cs.take (j.toNat + 1), cs.drop (j.toNat + 1)) else none
    else none
  | [] => none

/-- Embeds `re.findall`: non-overlapping leftmost matches, scanning left to right,
the fence branch tried first.  Each match contributes its pair of capture
groups; a non-participating group is the empty string, as in Python.  The
fuel is an upper bound on the number of scan steps (each step consumes at
least one character), so the fuel-exhausted branch is never reached. -/
def reFindAllGo : Nat → List Char → List (List Char × List Char)
  | 0, _ => []
  | _ + 1, [] => []
  | fuel + 1, c :: cs =>
    match matchFenceAt (c :: cs) with
    | some (g, rest) => (g, []) :: reFindAllGo fuel rest
    | none =>
      match matchBraceAt (c :: cs) with
      | some (g, rest) => ([], g) :: reFindAllGo fuel rest
      | none => reFindAllGo fuel cs

def reFindAll (cs : List Char) : List (List Char × List Char) :=
  reFindAllGo (cs.length + 1) cs

def startsBrace (cs : List Char) : Bool :=
  match cs with
  | c :: _ => c = '\x7b' || c = '\x5b'
  | [] => false

/-- The group-selection loop over the matches: the first non-empty group
whose stripped text starts with a brace or bracket (`if group and
group.strip().startswith(...)`), stripped. -/
def selectGroup : List (List Char × List Char) → Option (List Char)
  | [] => none
  | (g1, g2) :: ms =>
    if g1 ≠ [] && startsBrace (pyStripList g1) then some (pyStripList g1)
    else if g2 ≠ [] && startsBrace (pyStripList g2) then some (pyStripList g2)
    else selectGroup ms

/-- The fallback direct scan with `find` / `rfind` used when the regex
produced no candidate.  (`str.find` cannot raise, so the surrounding
`try/except` in the source is inert.) -/
def directCandidate (cs : List Char) : Option (List Char) :=
  let startIdx := if cs.contains '\x7b' then pyFind cs '\x7b' else pyFind cs '\x5b'
  let endIdx := if cs.contains '\x7d' then pyRFind cs '\x7d' else pyRFind cs '\x5d'
  if startIdx ≠ -1 && endIdx ≠ -1 && startIdx < endIdx then
    some ((cs.drop startIdx.toNat).take (endIdx.toNat + 1 - startIdx.toNat))
  else none

/-- The candidate `json_str` handed to `json.loads`, if any. -/
def extractJsonCandidate (cleaned : List Char) : Option (List Char) :=
  match selectGroup (reFindAll cleaned) with
  | some s => some s
  | none => directCandidate cleaned

/-- Embeds `extract_json_from_response(response)`.  `loads` models `json.loads`
(`none` = `json.JSONDecodeError`); a parse failure and the no-candidate case
both return the empty dict `{}`. -/
def extractJsonFromResponse (loads : String → Option PyJson)
    (response : String) : PyJson :=
  let cleaned := cleanTextData response
  match extractJsonCandidate cleaned.data with
  | some s =>
    match loads (String.mk s) with
    | some v => v
    | none => PyJson.obj []
  | none => PyJson.obj []

theorem startsWithTriple_mem {cs : List Char} (hs : startsWithTriple cs = true) :
    backtick ∈ cs := by
  match cs with
  | [] => simp [startsWithTriple] at hs
  | [b1] => simp [startsWithTriple] at hs
  | [b1, b2] => simp [startsWithTriple] at hs
  | b1 :: b2 :: b3 :: rest =>
    rw [startsWithTriple] at hs
    rcases Bool.and_eq_true _ _ |>.mp hs with ⟨h1, _⟩
    rcases Bool.and_eq_true _ _ |>.mp h1 with ⟨h2, _⟩
    have hb : b1 = backtick := by simpa using h2
    exact hb ▸ List.mem_cons_self _ _

theorem matchFenceAt_eq_none {cs : List Char} (h : backtick ∉ cs) :
    matchFenceAt cs = none := by
  unfold matchFenceAt
  rcases hs : startsWithTriple cs with hfalse | htrue
  · simp
  · exact absurd (startsWithTriple_mem hs) h

theorem matchBraceAt_eq_none {cs : List Char}
    (h1 : '\x7b' ∉ cs) (h2 : '\x5b' ∉ cs) : matchBraceAt cs = none := by
  match cs with
  | [] => rfl
  | c :: rest =>
    unfold matchBraceAt
    have hc1 : ¬ c = '\x7b' := fun h => h1 (h ▸ List.mem_cons_self _ _)
    have hc2 : ¬ c = '\x5b' := fun h => h2 (h ▸ List.mem_cons_self _ _)
    simp [hc1, hc2]

theorem reFindAllGo_eq_nil {fuel : Nat} {cs : List Char}
    (hb : backtick ∉ cs) (h1 : '\x7b' ∉ cs) (h2 : '\x5b' ∉ cs) :
    reFindAllGo fuel cs = [] := by
  induction fuel generalizing cs with
  | zero => rfl
  | succ n ih =>
    match cs with
    | [] => rfl
    | c :: rest =>
      rw [reFindAllGo, matchFenceAt_eq_none hb, matchBraceAt_eq_none h1 h2]
      exact ih (fun h => hb (List.mem_cons_of_mem _ h))
        (fun h => h1 (List.mem_cons_of_mem _ h))
        (fun h => h2 (List.mem_cons_of_mem _ h))

theorem pyFindGo_eq_neg {c : Char} {cs : List Char} (h : c ∉ cs) :
    ∀ i, pyFindGo c cs i = -1 := by
  induction cs with
  | nil => intro i; rfl
  | cons x xs ih =>
    intro i
    rw [pyFindGo]
    have hx : ¬ x = c := fun hx => h (hx ▸ List.mem_cons_self _ _)
    rw [if_neg hx]
    exact ih (fun hm => h (List.mem_cons_of_mem _ hm)) _

theorem directCandidate_eq_none {cs : List Char}
    (h1 : '\x7b' ∉ cs) (h2 : '\x5b' ∉ cs) : directCandidate cs = none := by
  unfold directCandidate
  have hc : cs.contains '\x7b' = false := by
    rw [List.contains_eq_any_beq]
    rw [List.any_eq_false]
    intro x hx
    simp only [beq_iff_eq]
    intro heq
    exact h1 (heq ▸ hx)
  have hfind : pyFind cs '\x5b' = -1 := pyFindGo_eq_neg h2 0
  rw [hc]
  simp only [Bool.false_eq_true, if_false]
  rw [hfind]
  simp

/-- The function `extract_json_from_response` returns the empty dict on **every** input:
`clean_text_data` has already deleted every brace, bracket and backtick, so
neither the regex nor the direct scan can ever produce a candidate. -/
theorem extractJsonFromResponse_eq_empty (loads : String → Option PyJson)
    (response : String) :
    extractJsonFromResponse loads response = PyJson.obj [] := by
  have hb : backtick ∉ (cleanTextData response).data := by
    intro hm
    have := mem_cleanTextData hm
    revert this
    decide
  have h1 : '\x7b' ∉ (cleanTextData response).data := by
    intro hm
    have := mem_cleanTextData hm
    revert this
    decide
  have h2 : '\x5b' ∉ (cleanTextData response).data := by
    intro hm
    have := mem_cleanTextData hm
    revert this
    decide
  have hnil : reFindAll (cleanTextData response).data = [] :=
    reFindAllGo_eq_nil hb h1 h2
  have hcand : extractJsonCandidate (cleanTextData response).data = none := by
    unfold extractJsonCandidate
    rw [hnil]
    simp only [selectGroup]
    exact directCandidate_eq_none h1 h2
  simp only [extractJsonFromResponse, hcand]

/-! ## Error taxonomy (adapters/model_adapter.py, lines 12-57) and
`OpenRouterAdapter.handle_error` (adapters/openrouter_adapter.py, lines 386-456) -/

/-- The value stored in `ModelRateLimitError.retry_after`.  Python leaves the
raw header string in place when the header is present but empty (`if
retry_after:` is false for `""`), so the field is not simply `Option Int`. -/
inductive RAVal where
  | raNone
  | raInt (n : Int)
  | raStr (s : String)
deriving DecidableEq, Repr

/-- The `ModelAdapterError` class hierarchy, as a tagged union.  `generic` is
the base `ModelAdapterError`; every variant carries `message`, `operation`
and `model_name`. -/
inductive AdapterError where
  | timeout (message operation modelName : String) (timeoutVal : ℚ)
  | authentication (message operation modelName : String)
  | rateLimit (message operation modelName : String) (retryAfter : RAVal)
  | contentFilter (message operation modelName : String) (filterReason : Option String)
  | generic (message operation modelName : String)
deriving DecidableEq, Repr

/-- Retryability per the design document taxonomy (section 4.2): Generic and
Timeout kinds are retryable; Authentication, RateLimit and ContentFilter are
not.  (Used only to phrase claim hypotheses; the code itself never consults
the kind before retrying.) -/
def isNonRetryable : AdapterError → Bool
  | .authentication .. => true
  | .rateLimit .. => true
  | .contentFilter .. => true
  | .timeout .. => false
  | .generic .. => false

/-- The raw transport/library exceptions that reach the `except` clauses of
the adapter, by the attributes `handle_error` inspects. -/
inductive RawError where
  | timeout (msg : String)
  | connection (msg : String)
  | http (msg : String) (statusCode : Option Int)
      (headers : List (String × String)) (body : Option PyJson)
  | other (msg : String)

/-- ASCII lowering of one character (kernel-friendly form of
`Char.toLower` for the ASCII header names involved). -/
def asciiLowerNat (c : Char) : Nat :=
  if 65 ≤ c.toNat && c.toNat ≤ 90 then c.toNat + 32 else c.toNat

def ciEqList : List Char → List Char → Bool
  | [], [] => true
  | a :: as, b :: bs => asciiLowerNat a = asciiLowerNat b && ciEqList as bs
  | _, _ => false

/-- Header lookup: `requests`/`aiohttp` response headers are case-insensitive mappings;
`headers.get("retry-after")`. -/
def ciGet (headers : List (String × String)) (name : String) : Option String :=
  (headers.find? (fun p => ciEqList p.1.data name.data)).map Prod.snd

/-- Lines 423-431: read the `retry-after` header and try `int(...)` on it.
A present-but-empty header is falsy, so it is left in place unparsed. -/
def retryAfterValue (headers : List (String × String)) : RAVal :=
  match ciGet headers "retry-after" with
  | none => .raNone
  | some s =>
    if s = "" then .raStr s
    else
      match pyParseInt s with
      | some n => .raInt n
      | none => .raNone

def jlookup (fields : List (String × PyJson)) (key : String) : Option PyJson :=
  (fields.find? (fun p => p.1 = key)).map Prod.snd

/-- Lines 438-448, the body of the `try` in the 400 branch: the
`ModelContentFilterError` that the code builds and raises, if any.  `body =
none` models `response.json()` raising.  Cases where the navigation of the
parsed body itself raises (`response_data` or `response_data["error"]` not a
dict) also produce no content-filter error: every exception inside the `try`
lands in the same `except Exception: pass`. -/
def contentFilterRaised (body : Option PyJson) (operation modelName : String) :
    Option AdapterError :=
  match body with
  | some (PyJson.obj fields) =>
    match jlookup fields "error" with
    | some (PyJson.obj efields) =>
      match jlookup efields "type" with
      | some (PyJson.str t) =>
        if t = "content_filter" then
          let reason :=
            match jlookup efields "message" with
            | some (PyJson.str m) => m
            | _ => "Content filtered"
          some (.contentFilter ("Content filtered: " ++ reason) operation modelName
            (some reason))
        else none
      | _ => none
    | _ => none
  | _ => none

/-- Adapter configuration: `timeout`, `max_retries`, `retry_delay`
(openrouter_adapter.py, lines 50-52; defaults 30, 3, 1.0). -/
structure AdapterCfg where
  timeout : ℚ
  maxRetries : Nat
  retryDelay : ℚ
deriving DecidableEq, Repr

def pyReprStatus : Option Int → String
  | none => "None"
  | some n => toString n

/-- Embeds `OpenRouterAdapter.handle_error(error, operation, model_name)`
(lines 386-456).  The function always raises; its result here is the raised
error.  Note that in the 400 branch the raised `ModelContentFilterError` is
itself caught by the enclosing `except Exception: pass`, so both arms of the
match fall through to the generic HTTP error. -/
def handleError (cfg : AdapterCfg) (error : RawError)
    (operation modelName : String) : AdapterError :=
  match error with
  | .timeout msg => .timeout msg operation modelName cfg.timeout
  | .connection msg => .generic ("Connection error: " ++ msg) operation modelName
  | .http msg status headers body =>
    if status = some 401 ∨ status = some 403 then
      .authentication ("Authentication error: " ++ msg) operation modelName
    else if status = some 429 then
      .rateLimit ("Rate limit exceeded: " ++ msg) operation modelName
        (retryAfterValue headers)
    else if status = some 400 then
      match contentFilterRaised body operation modelName with
      | some _ =>
        -- the raise happens but is swallowed by `except Exception: pass`
        .generic ("HTTP error " ++ pyReprStatus status ++ ": " ++ msg)
          operation modelName
      | none =>
        .generic ("HTTP error " ++ pyReprStatus status ++ ": " ++ msg)
          operation modelName
    else
      .generic ("HTTP error " ++ pyReprStatus status ++ ": " ++ msg)
        operation modelName
  | .other msg => .generic msg operation modelName

/-! ## The retry loop of `generate_text` / `generate_chat_completion`
(openrouter_adapter.py, lines 112-142 and 200-226)

```python
retries = 0
while True:
    try:
        ...one attempt (post, raise_for_status, parse)...
        return ...
    except Exception as error:
        retries += 1
        if retries <= self.max_retries:
            time.sleep(self.retry_delay * retries)
            continue
        else:
            self.handle_error(error, op, model_name or "default")
```

One attempt (the network round trip plus response parsing) is the boundary
function `outcome : Nat → Except RawError α`, giving the result of the
`i`-th attempt (0-based).  The trace records the number of attempts made,
the arguments of the `time.sleep` calls in order, and the outcome. -/

structure RetryTrace (α : Type) where
  attempts : Nat
  delays : List ℚ
  result : Except AdapterError α

/-- The loop body.  `i` is the index of the attempt about to run; `fuel`
starts at `max_retries + 1` and is an upper bound on the remaining attempts,
so the fuel-exhausted branch is never reached (see
`retryGo_spec_of_allFail`). -/
def retryGo (cfg : AdapterCfg) (operation modelName : String)
    (outcome : Nat → Except RawError α) :
    Nat → Nat → List ℚ → RetryTrace α
  | 0, i, delays => ⟨i, delays.reverse, .error (.generic "unreachable" operation modelName)⟩
  | fuel + 1, i, delays =>
    match outcome i with
    | .ok a => ⟨i + 1, delays.reverse, .ok a⟩
    | .error e =>
      if i + 1 ≤ cfg.maxRetries then
        retryGo cfg operation modelName outcome fuel (i + 1)
          (cfg.retryDelay * (i + 1 : ℚ) :: delays)
      else
        ⟨i + 1, delays.reverse, .error (handleError cfg e operation modelName)⟩

/-- The whole retry loop of one `generate_text` call (after prompt and
parameter preparation). -/
def generateTextAttempts (cfg : AdapterCfg) (modelName : String)
    (outcome : Nat → Except RawError α) : RetryTrace α :=
  retryGo cfg "generate_text" modelName outcome (cfg.maxRetries + 1) 0 []

/-- The identical loop in `generate_chat_completion`. -/
def generateChatAttempts (cfg : AdapterCfg) (modelName : String)
    (outcome : Nat → Except RawError α) : RetryTrace α :=
  retryGo cfg "generate_chat_completion" modelName outcome (cfg.maxRetries + 1) 0 []

/-- The backoff schedule `retry_delay * 1, ..., retry_delay * n`. -/
def backoffSchedule (d : ℚ) (n : Nat) : List ℚ :=
  (List.range n).map (fun k : Nat => d * ((k : ℚ) + 1))

/-- If every attempt fails, the loop performs exactly `max_retries + 1`
attempts, sleeps `retry_delay * k` before the `k`-th retry, and ends in the
classification of the last raw error. -/
theorem retryGo_spec_of_allFail (cfg : AdapterCfg) (operation modelName : String)
    (e : Nat → RawError) (outcome : Nat → Except RawError α)
    (hfail : ∀ j, outcome j = .error (e j)) :
    ∀ i delays, i ≤ cfg.maxRetries →
      retryGo cfg operation modelName outcome (cfg.maxRetries + 1 - i) i delays =
        ⟨cfg.maxRetries + 1,
         delays.reverse ++
           ((List.range (cfg.maxRetries - i)).map
             (fun k : Nat => cfg.retryDelay * ((i : ℚ) + (k : ℚ) + 1))),
         .error (handleError cfg (e cfg.maxRetries) operation modelName)⟩ := by
  have key : ∀ n i delays, i ≤ cfg.maxRetries → cfg.maxRetries - i = n →
      retryGo cfg operation modelName outcome (cfg.maxRetries + 1 - i) i delays =
        ⟨cfg.maxRetries + 1,
         delays.reverse ++
           ((List.range (cfg.maxRetries - i)).map
             (fun k : Nat => cfg.retryDelay * ((i : ℚ) + (k : ℚ) + 1))),
         .error (handleError cfg (e cfg.maxRetries) operation modelName)⟩ := by
    intro n
    induction n with
    | zero =>
      intro i delays hi hn
      have hieq : i = cfg.maxRetries := by omega
      subst hieq
      have hfuel : cfg.maxRetries + 1 - cfg.maxRetries = 1 := by omega
      rw [hfuel]
      simp only [retryGo, hfail]
      rw [if_neg (by omega)]
      simp [hn]
    | succ n ih =>
      intro i delays hi hn
      have hfuel : cfg.maxRetries + 1 - i = (cfg.maxRetries + 1 - (i + 1)) + 1 := by omega
      rw [hfuel]
      simp only [retryGo, hfail]
      rw [if_pos (by omega)]
      rw [ih (i + 1) _ (by omega) (by omega)]
      have hrange : (List.range (cfg.maxRetries - i)).map
          (fun k : Nat => cfg.retryDelay * ((i : ℚ) + (k : ℚ) + 1)) =
          cfg.retryDelay * (i + 1 : ℚ) ::
            (List.range (cfg.maxRetries - (i + 1))).map
              (fun k : Nat => cfg.retryDelay * (((i + 1 : Nat) : ℚ) + (k : ℚ) + 1)) := by
        have hsplit : cfg.maxRetries - i = (cfg.maxRetries - (i + 1)) + 1 := by omega
        rw [hsplit, List.range_succ_eq_map, List.map_cons]
        congr 1
        · push_cast
          ring
        · rw [List.map_map]
          apply List.map_congr_left
          intro k _
          simp only [Function.comp_apply]
          push_cast
          ring
      rw [hrange, List.reverse_cons, List.append_assoc]
      simp
  intro i delays hi
  exact key _ i delays hi rfl

/-! ## Configuration (config/settings.py) -/

/-- Setting `DEFAULT_MODEL = os.getenv("DEFAULT_AI_MODEL", "openai/gpt-4")`, at its
default. -/
def DEFAULT_MODEL : String := "openai/gpt-4"

/-- Setting `MODEL_CONFIGS[model]["context_window"]`, with the `4096` default applied
by `prepare_prompt` / `prepare_messages` via `model_config.get`. -/
def modelContextWindow (model : String) : Nat :=
  if model = "openai/gpt-4" then 8192
  else if model = "openai/gpt-3.5-turbo" then 4096
  else if model = "anthropic/claude-2" then 100000
  else if model = "anthropic/claude-instant-1" then 100000
  else 4096

/-! ## `prepare_prompt` (adapters/model_adapter.py, lines 366-392) -/

def truncationNote : String :=
  "\n[Note: prompt has been truncated to fit model context window]"

/-- Embeds `prepare_prompt(prompt, model_name)`.  The float test
`len(cleaned) > context_window * 0.9` and the bound
`int(context_window * 0.9)` are embedded exactly as `10·len > 9·cw` and
`⌊9·cw/10⌋`, which agree with the IEEE evaluation for the configured window
sizes. -/
def preparePrompt (prompt : String) (modelName : Option String) : String :=
  let model := pyOrStr modelName DEFAULT_MODEL
  let cw := modelContextWindow model
  let cleaned := pyStrip prompt
  if 9 * cw < 10 * cleaned.length then
    String.mk (cleaned.data.take (9 * cw / 10)) ++ truncationNote
  else cleaned

/-! ## `prepare_parameters` (adapters/model_adapter.py, lines 465-498)

The parameter dictionary.  A field is `none` when its key is absent.  The
source dictionary can carry arbitrary further keys; none of them interact
with the range-validation step, which reads and writes only `temperature`
and `top_p`. -/

structure Params where
  temperature : Option ℚ
  topP : Option ℚ
  maxTokens : Option Int
  frequencyPenalty : Option ℚ
  presencePenalty : Option ℚ
  stop : Option (Option String)
  timeout : Option ℚ
deriving DecidableEq, Repr

def emptyParams : Params :=
  ⟨none, none, none, none, none, none, none⟩

/-- Embeds `MODEL_CONFIGS.get(model, {})` with the non-parameter keys
`context_window` and `capabilities` removed (lines 477-485). -/
def modelConfigParams (model : String) : Params :=
  if model = "openai/gpt-4" || model = "openai/gpt-3.5-turbo" then
    { temperature := some (7/10), maxTokens := some 1000, topP := some 1,
      frequencyPenalty := some 0, presencePenalty := some 0,
      stop := some none, timeout := some 30 }
  else if model = "anthropic/claude-2" || model = "anthropic/claude-instant-1" then
    { temperature := some (7/10), maxTokens := some 1000, topP := some 1,
      frequencyPenalty := none, presencePenalty := none,
      stop := some none, timeout := some 30 }
  else emptyParams

/-- Embeds `prepared_params.update(parameters)`: a user key overrides the default. -/
def mergeParams (base user : Params) : Params where
  temperature := user.temperature.orElse (fun _ => base.temperature)
  topP := user.topP.orElse (fun _ => base.topP)
  maxTokens := user.maxTokens.orElse (fun _ => base.maxTokens)
  frequencyPenalty := user.frequencyPenalty.orElse (fun _ => base.frequencyPenalty)
  presencePenalty := user.presencePenalty.orElse (fun _ => base.presencePenalty)
  stop := user.stop.orElse (fun _ => base.stop)
  timeout := user.timeout.orElse (fun _ => base.timeout)

/-- Lines 491-496, the range-validation step:

```python
if "temperature" in p and not 0 <= p["temperature"] <= 2:
    p["temperature"] = max(0, min(p["temperature"], 2))
if "top_p" in p and not 0 < p["top_p"] <= 1:
    p["top_p"] = max(0.01, min(p["top_p"], 1))
``` -/
def clampParams (p : Params) : Params :=
  let p1 :=
    match p.temperature with
    | some t =>
      if ¬ (0 ≤ t ∧ t ≤ 2) then { p with temperature := some (max 0 (min t 2)) }
      else p
    | none => p
  match p1.topP with
  | some v =>
    if ¬ (0 < v ∧ v ≤ 1) then { p1 with topP := some (max (1/100) (min v 1)) }
    else p1
  | none => p1

/-- Embeds `prepare_parameters(parameters, model_name)`.  `user = none` covers both
`parameters=None` and the falsy empty dict (`if parameters:` skips the
update in either case). -/
def prepareParameters (user : Option Params) (modelName : Option String) : Params :=
  let model := pyOrStr modelName DEFAULT_MODEL
  let base := modelConfigParams model
  let merged :=
    match user with
    | none => base
    | some u => mergeParams base u
  clampParams merged

/-- Both generation parameters are inside their documented ranges
(temperature in [0,2], top-p in (0,1]) whenever present. -/
def paramsInRangeB (p : Params) : Bool :=
  (match p.temperature with
   | some t => decide (0 ≤ t ∧ t ≤ 2)
   | none => true) &&
  (match p.topP with
   | some v => decide (0 < v ∧ v ≤ 1)
   | none => true)

theorem clampParams_inRange (p : Params) : paramsInRangeB (clampParams p) = true := by
  have htemp : ∀ t : ℚ, 0 ≤ max 0 (min t 2) ∧ max 0 (min t 2) ≤ 2 := fun t =>
    ⟨le_max_left _ _, max_le (by norm_num) (min_le_right _ _)⟩
  have htop : ∀ v : ℚ, 0 < max (1/100) (min v 1) ∧ max (1/100) (min v 1) ≤ 1 := fun v =>
    ⟨lt_of_lt_of_le (by norm_num) (le_max_left _ _),
     max_le (by norm_num) (min_le_right _ _)⟩
  rcases p with ⟨t, v, mt, fp, pp, st, to'⟩
  rcases t with _ | t <;> rcases v with _ | v
  · simp [clampParams, paramsInRangeB]
  · by_cases hv : 0 < v ∧ v ≤ 1
    · simp [clampParams, paramsInRangeB, hv]
    · simp [clampParams, paramsInRangeB, hv, (htop v).1, (htop v).2]
      norm_num
  · by_cases ht : 0 ≤ t ∧ t ≤ 2
    · simp [clampParams, paramsInRangeB, ht]
    · simp [clampParams, paramsInRangeB, ht, (htemp t).1, (htemp t).2]
  · by_cases ht : 0 ≤ t ∧ t ≤ 2 <;> by_cases hv : 0 < v ∧ v ≤ 1 <;>
      · simp [clampParams, paramsInRangeB, ht, hv, (htemp t).1, (htemp t).2,
          (htop v).1, (htop v).2]
        try norm_num

theorem clampParams_of_inRange (p : Params) (h : paramsInRangeB p = true) :
    clampParams p = p := by
  unfold paramsInRangeB at h
  rcases Bool.and_eq_true _ _ |>.mp h with ⟨h1, h2⟩
  unfold clampParams
  rcases p with ⟨t, v, mt, fp, pp, st, to'⟩
  rcases t with _ | t <;> rcases v with _ | v <;> simp_all

theorem clampParams_idem (p : Params) : clampParams (clampParams p) = clampParams p :=
  clampParams_of_inRange _ (clampParams_inRange p)

/-! ## `prepare_messages` (adapters/model_adapter.py, lines 395-462) and the
validation boundary of `generate_chat_completion`
(openrouter_adapter.py, lines 144-226) -/

/-- A chat message: a dict with `role` and `content` keys.  (Extra dict keys
play no role in any branch of `prepare_messages`.) -/
structure Msg where
  role : String
  content : String
deriving DecidableEq, Repr

/-- An element of the caller-supplied `messages` list: either a proper
message dict or a malformed entry (not a dict, or a dict missing `role` or
`content`). -/
inductive MsgEntry where
  | msg (m : Msg)
  | malformed
deriving DecidableEq, Repr

def charsBeginWith : List Char → List Char → Bool
  | [], _ => true
  | _ :: _, [] => false
  | a :: pre, b :: bs => a = b && charsBeginWith pre bs

/-- Embeds `s.startswith(pre)` (kernel-friendly form of `String.startsWith`). -/
def strBeginsWith (s pre : String) : Bool :=
  charsBeginWith pre.data s.data

def msgValidationError : String :=
  "Each message must be a dict with \x27role\x27 and \x27content\x27 keys"

def sumContentLength (msgs : List Msg) : Nat :=
  (msgs.map (fun m => m.content.length)).sum

def messageTruncationNote : String :=
  "\n[Note: message has been truncated to fit model context window]"

/-- The `while other_messages and remaining_length <= 0:` loop (lines
439-441): drop the oldest non-system message and recompute
`remaining_length = base - sum(len(m["content"]) for m in other)`, where
`base = int(cw*0.9) - system_length`. -/
def popOldest (base : Int) : List Msg → Int → Int × List Msg
  | [], r => (r, [])
  | m :: rest, r =>
    if r ≤ 0 then popOldest base rest (base - (sumContentLength rest : Int))
    else (r, m :: rest)

/-- The system message inserted for `anthropic/` models (lines 455-460). -/
def defaultSystemMsg : Msg :=
  ⟨"system",
   "You are a helpful AI assistant for the Tribe platform, which helps people form meaningful local connections."⟩

/-- Lines 419-462 of `prepare_messages`, after validation has passed. -/
def prepareMessagesBody (msgs : List Msg) (model : String) : List Msg :=
  let cw := modelContextWindow model
  let total := sumContentLength msgs
  let optimized :=
    if 9 * cw < 10 * total then
      let sys := msgs.filter (fun m => m.role = "system")
      let other := msgs.filter (fun m => ¬ m.role = "system")
      let sysLen := sumContentLength sys
      let base : Int := (9 * cw / 10 : Nat) - (sysLen : Int)
      let (r, other2) := popOldest base other base
      let other3 :=
        match other2 with
        | m0 :: rest =>
          if r < (sumContentLength (m0 :: rest) : Int) then
            { m0 with content :=
                pySliceTo m0.content (r - (sumContentLength rest : Int)) ++
                  messageTruncationNote } :: rest
          else m0 :: rest
        | [] => []
      sys ++ other3
    else msgs
  let hasSystem := optimized.any (fun m => m.role = "system")
  if ¬ hasSystem && strBeginsWith model "anthropic/" then
    defaultSystemMsg :: optimized
  else optimized

/-- Embeds `prepare_messages(messages, model_name)`.  The `isinstance(messages,
list)` check is enforced by the Lean type; the per-entry check raises
`ValueError` on the first malformed entry.  The error value is the raised
`ValueError` message. -/
def prepareMessages (messages : List MsgEntry) (modelName : Option String) :
    Except String (List Msg) :=
  let model := pyOrStr modelName DEFAULT_MODEL
  if messages.any (fun e => e = MsgEntry.malformed) then
    Except.error msgValidationError
  else
    Except.ok (prepareMessagesBody
      (messages.filterMap (fun e => match e with
        | MsgEntry.msg m => some m
        | MsgEntry.malformed => none)) model)

/-- The observable behaviour of one `generate_chat_completion` call:
either the `ValueError` raised by message validation (before the request
loop ever runs, hence before any network attempt), or the trace of the
retry loop. -/
inductive ChatOutcome (α : Type) where
  | invalid (msg : String)
  | completed (trace : RetryTrace α)

/-- Embeds `generate_chat_completion(messages, model_name, parameters)`: message
preparation happens first (line 181); only if it does not raise does the
request loop (lines 205-226) run, its attempts given by `outcome`.  Inside
the loop, `handle_error` receives `model_name or "default"` (line 226). -/
def generateChatCompletion (cfg : AdapterCfg) (messages : List MsgEntry)
    (modelName : Option String) (outcome : Nat → Except RawError α) :
    ChatOutcome α :=
  match prepareMessages messages modelName with
  | .error m => .invalid m
  | .ok _prepared =>
    .completed (generateChatAttempts cfg (pyOrStr modelName "default") outcome)

/-- The number of network attempts a call made: zero when validation
raised. -/
def chatNetworkAttempts : ChatOutcome α → Nat
  | .invalid _ => 0
  | .completed t => t.attempts

/-! ## `MatchingService` result cache (services/matching_service.py)

The `_cache` dict maps a key string to a dict of result and timestamp.
The state also records `_cache_enabled`, `_cache_ttl` and `_default_model`.
When caching is disabled, `_cache` is `None`; both `None` and the **empty
dict** are falsy, so the guard `not self._cache_enabled or not self._cache`
is modelled as `¬ enabled ∨ cache = []`.  Matching results are dicts,
modelled as association lists; the empty dict is falsy.  `time.time()`
values and the TTL are embedded as integers (only subtraction and order
comparison are applied to them). -/

/-- A matching result (`Dict[str, Any]`, here with string values; only
emptiness/truthiness and identity of results matter to the claims). -/
def MatchResult : Type := List (String × String)
deriving instance DecidableEq, Repr for MatchResult

/-- One `_cache` entry: result plus the `time.time()` creation stamp. -/
structure CacheEntry where
  result : MatchResult
  timestamp : Int
deriving DecidableEq, Repr

structure MatchingServiceState where
  cacheEnabled : Bool
  cacheTtl : Int
  cache : List (String × CacheEntry)
  defaultModel : String
deriving DecidableEq, Repr

/-- Python dict lookup (`cache_key in self._cache` / `self._cache[k]`); keys
are unique in a dict, matched by first occurrence in the association list. -/
def lookupCache (cache : List (String × CacheEntry)) (key : String) :
    Option CacheEntry :=
  (cache.find? (fun p => p.1 = key)).map Prod.snd

/-- Embeds `del self._cache[cache_key]`. -/
def eraseCache (cache : List (String × CacheEntry)) (key : String) :
    List (String × CacheEntry) :=
  cache.filter (fun p => ¬ p.1 = key)

/-- Embeds `self._cache[cache_key] = {...}`: overwrite or insert. -/
def insertCache (cache : List (String × CacheEntry)) (key : String)
    (entry : CacheEntry) : List (String × CacheEntry) :=
  if (cache.find? (fun p => p.1 = key)).isSome then
    cache.map (fun p => if p.1 = key then (key, entry) else p)
  else cache ++ [(key, entry)]

/-- Embeds `get_cached_result(cache_key)` (lines 421-449), returning the value and
the possibly updated state (an expired entry is deleted). -/
def getCachedResult (svc : MatchingServiceState) (key : String) (now : Int) :
    Option MatchResult × MatchingServiceState :=
  if ¬ svc.cacheEnabled ∨ svc.cache = [] then (none, svc)
  else
    match lookupCache svc.cache key with
    | none => (none, svc)
    | some entry =>
      if svc.cacheTtl < now - entry.timestamp then
        (none, { svc with cache := eraseCache svc.cache key })
      else (some entry.result, svc)

/-- Embeds `cache_result(cache_key, result)` (lines 451-468).  The guard
`not self._cache_enabled or not self._cache` is also true when the cache is
enabled but **empty**, so in that state the function returns without
storing anything. -/
def cacheResult (svc : MatchingServiceState) (key : String)
    (result : MatchResult) (now : Int) : MatchingServiceState :=
  if ¬ svc.cacheEnabled ∨ svc.cache = [] then svc
  else { svc with cache := insertCache svc.cache key ⟨result, now⟩ }

/-- Embeds `generate_cache_key` (lines 511-539): the SHA-256 digest of the
canonical sorted-key JSON serialization of the four inputs.  The digest is a
library boundary, passed in as `digest`; `dataJson` and `optionsJson` stand
for the canonical JSON serializations of the `data` and `options` dicts. -/
def generateCacheKey (digest : String → String)
    (matchingType dataJson optionsJson modelName : String) : String :=
  digest ("\x7b\"data\": " ++ dataJson ++
    ", \"matching_type\": \"" ++ matchingType ++
    "\", \"model_name\": \"" ++ modelName ++
    "\", \"options\": " ++ optionsJson ++ "\x7d")

def matchingTypes : List String :=
  ["user_tribe", "tribe_formation", "compatibility"]

/-- The outcome of one `perform_matching` call: the returned value, the
state after the call, and whether the underlying `MatchingModel` (the
network-bound model layer) was invoked. -/
structure PerformResult where
  result : Except String MatchResult
  state : MatchingServiceState
  calledModel : Bool

/-- Embeds `perform_matching(matching_type, data, options, model_name)` (lines
269-318).  The model layer is the boundary `modelResult` — the value
`self._matching_model.perform_matching(...)` would return for this input
(failure of the model layer is not exercised by the claims; the success
path stores the result via `cache_result` and returns it).  An invalid
matching type raises `ValueError` (the `.error` case).  A cached result is
used only when truthy (`if cached_result:`), i.e. a non-empty dict. -/
def performMatching (digest : String → String) (svc : MatchingServiceState)
    (matchingType dataJson optionsJson : String) (modelName : Option String)
    (modelResult : MatchResult) (now : Int) : PerformResult :=
  if ¬ matchingTypes.contains matchingType then
    ⟨.error ("Invalid matching type: " ++ matchingType), svc, false⟩
  else
    let model :=
      match modelName with
      | none => svc.defaultModel
      | some m => m
    let key := generateCacheKey digest matchingType dataJson optionsJson model
    let lookup := getCachedResult svc key now
    match lookup.1 with
    | some r =>
      if r = ([] : MatchResult) then
        ⟨.ok modelResult, cacheResult lookup.2 key modelResult now, true⟩
      else ⟨.ok r, lookup.2, false⟩
    | none => ⟨.ok modelResult, cacheResult lookup.2 key modelResult now, true⟩

/-- A `MatchingService` as constructed with caching enabled and default
configuration: `CACHE_ENABLED = True`, `CACHE_TTL = 3600`, `self._cache =
{}` (lines 58-66), default model `openai/gpt-4`. -/
def freshMatchingService : MatchingServiceState :=
  ⟨true, 3600, [], "openai/gpt-4"⟩

theorem pyStripList_replicate (n : Nat) (c : Char) (hc : pyIsSpace c = false) :
    pyStripList (List.replicate n c) = List.replicate n c := by
  have hd : ∀ m : Nat, List.dropWhile pyIsSpace (List.replicate m c) =
      List.replicate m c := by
    intro m
    rw [List.dropWhile_eq_self_iff]
    intro hpos hx
    rw [List.get_replicate] at hx
    rw [hc] at hx
    simp at hx
  unfold pyStripList
  rw [hd, List.reverse_replicate, hd, List.reverse_replicate]

/-! ## Claim theorems -/

/-- C5: `extract_json_from_response` is claimed to recover the object
`{"a":1}` from a bare JSON string, from a ```json fenced block, and from
JSON wrapped in prose, and to return the empty result for plain prose.  In
fact the `clean_text_data` preprocessing deletes every brace, bracket,
backtick and colon, so extraction returns the empty dict on all four inputs
(for every possible behaviour of `json.loads`): the three recovery cases of
the claim fail, only the plain-prose case holds. -/
theorem c5_extraction_always_empty (loads : String → Option PyJson) :
    extractJsonFromResponse loads "\x7b\"a\":1\x7d" = PyJson.obj [] ∧
    extractJsonFromResponse loads "\x60\x60\x60json\n\x7b\"a\":1\x7d\n\x60\x60\x60" =
      PyJson.obj [] ∧
    extractJsonFromResponse loads
      "Here is the JSON you asked for: \x7b\"a\":1\x7d hope it helps." =
      PyJson.obj [] ∧
    extractJsonFromResponse loads "There is no structured payload in this reply." =
      PyJson.obj [] ∧
    PyJson.obj [] ≠ PyJson.obj [("a", PyJson.int 1)] :=
  ⟨extractJsonFromResponse_eq_empty loads _,
   extractJsonFromResponse_eq_empty loads _,
   extractJsonFromResponse_eq_empty loads _,
   extractJsonFromResponse_eq_empty loads _,
   by simp⟩

/-- C4: for an HTTP 400 error whose JSON body has `error.type ==
"content_filter"`, `handle_error` does build and raise a
`ModelContentFilterError` carrying the provider filter-reason message
(first conjunct), but that raise happens inside the `try` whose
`except Exception: pass` catches it, so what propagates to the caller is
the generic `ModelAdapterError("HTTP error 400: ...")` (second conjunct),
contradicting the claim and the repository test
`test_handle_error_content_filter`. -/
theorem c4_content_filter_swallowed (cfg : AdapterCfg)
    (operation modelName : String) :
    contentFilterRaised
      (some (PyJson.obj [("error", PyJson.obj
        [("type", PyJson.str "content_filter"),
         ("message", PyJson.str "Content violates usage policies")])]))
      operation modelName =
      some (.contentFilter "Content filtered: Content violates usage policies"
        operation modelName (some "Content violates usage policies")) ∧
    handleError cfg
      (.http "Bad Request" (some 400) []
        (some (PyJson.obj [("error", PyJson.obj
          [("type", PyJson.str "content_filter"),
           ("message", PyJson.str "Content violates usage policies")])])))
      operation modelName =
      .generic "HTTP error 400: Bad Request" operation modelName :=
  ⟨rfl, rfl⟩

theorem handleError_http_429 (cfg : AdapterCfg) (msg operation modelName : String)
    (headers : List (String × String)) (body : Option PyJson) :
    handleError cfg (.http msg (some 429) headers body) operation modelName =
      .rateLimit ("Rate limit exceeded: " ++ msg) operation modelName
        (retryAfterValue headers) := rfl

/-- C7: the error-classification matrix.  A transport timeout is classified
as a Timeout error carrying the configured timeout; HTTP 401 and 403 give
Authentication errors; HTTP 429 with header `retry-after: 30` gives a
RateLimit error with retry_after = 30; an absent or unparsable
`retry-after` header leaves retry_after unset. -/
theorem c7_classification_matrix (cfg : AdapterCfg)
    (operation modelName msg : String)
    (headers : List (String × String)) (body : Option PyJson) :
    handleError cfg (.timeout msg) operation modelName =
      .timeout msg operation modelName cfg.timeout ∧
    handleError cfg (.http msg (some 401) headers body) operation modelName =
      .authentication ("Authentication error: " ++ msg) operation modelName ∧
    handleError cfg (.http msg (some 403) headers body) operation modelName =
      .authentication ("Authentication error: " ++ msg) operation modelName ∧
    handleError cfg (.http msg (some 429) [("retry-after", "30")] body)
      operation modelName =
      .rateLimit ("Rate limit exceeded: " ++ msg) operation modelName (.raInt 30) ∧
    handleError cfg (.http msg (some 429) [] body) operation modelName =
      .rateLimit ("Rate limit exceeded: " ++ msg) operation modelName .raNone ∧
    handleError cfg (.http msg (some 429) [("retry-after", "soon")] body)
      operation modelName =
      .rateLimit ("Rate limit exceeded: " ++ msg) operation modelName .raNone := by
  have h30 : retryAfterValue [("retry-after", "30")] = .raInt 30 := by decide
  have hnone : retryAfterValue ([] : List (String × String)) = .raNone := rfl
  have hsoon : retryAfterValue [("retry-after", "soon")] = .raNone := by decide
  refine ⟨rfl, rfl, rfl, ?_, ?_, ?_⟩
  · rw [handleError_http_429, h30]
  · rw [handleError_http_429, hnone]
  · rw [handleError_http_429, hsoon]

/-- C1: caching is claimed to make the second of two identical
`perform_matching` calls (within the TTL, caching enabled) hit the cache and
skip the model.  In fact, on a freshly constructed service the cache dict is
empty, and `cache_result` begins with `if not self._cache_enabled or not
self._cache: return` — an **empty dict is falsy**, so the result of the first
call is never stored: the state after the first call still has an empty
cache, and the second identical call invokes the model again (for every
digest function, input and call times). -/
theorem c1_second_call_hits_model_again (digest : String → String)
    (dataJson optionsJson : String) (r : MatchResult) (now1 now2 : Int) :
    (performMatching digest freshMatchingService "user_tribe" dataJson optionsJson
      none r now1).calledModel = true ∧
    (performMatching digest freshMatchingService "user_tribe" dataJson optionsJson
      none r now1).state = freshMatchingService ∧
    (performMatching digest
      (performMatching digest freshMatchingService "user_tribe" dataJson optionsJson
        none r now1).state
      "user_tribe" dataJson optionsJson none r now2).calledModel = true := by
  have h1 : ∀ now : Int,
      performMatching digest freshMatchingService "user_tribe" dataJson optionsJson
        none r now = ⟨.ok r, freshMatchingService, true⟩ := by
    intro now
    unfold performMatching
    rw [if_neg (by decide)]
    simp [getCachedResult, cacheResult, freshMatchingService]
  refine ⟨?_, ?_, ?_⟩
  · rw [h1 now1]
  · rw [h1 now1]
  · rw [h1 now1]
    rw [h1 now2]

/-- C6: `get_cached_result` never returns an entry older than the TTL: an
expired entry (`now − created_at > ttl`, strictly) is treated as a miss and
deleted from the cache at that read, while a non-expired entry is returned
as stored with the state unchanged. -/
theorem c6_get_cached_result_ttl (svc : MatchingServiceState) (key : String)
    (entry : CacheEntry) (now : Int)
    (henabled : svc.cacheEnabled = true)
    (hlookup : lookupCache svc.cache key = some entry) :
    (svc.cacheTtl < now - entry.timestamp →
      getCachedResult svc key now =
        (none, { svc with cache := eraseCache svc.cache key })) ∧
    (¬ svc.cacheTtl < now - entry.timestamp →
      getCachedResult svc key now = (some entry.result, svc)) := by
  have hne : ¬ svc.cache = [] := by
    intro h
    rw [h] at hlookup
    simp [lookupCache] at hlookup
  have hguard : ¬ (¬ svc.cacheEnabled ∨ svc.cache = []) := by
    rw [henabled]
    simp [hne]
  constructor
  · intro hexp
    unfold getCachedResult
    rw [if_neg hguard, hlookup]
    simp [hexp]
  · intro hfresh
    unfold getCachedResult
    rw [if_neg hguard, hlookup]
    simp [hfresh]

/-- Witness for C6: on the cache `{"k": {result: {"score": "1"}, timestamp:
100}}` with TTL 10, a read at time 200 misses and deletes the entry, and a
read at time 105 returns the stored result unchanged. -/
theorem c6_get_cached_result_ttl_witness :
    getCachedResult ⟨true, 10, [("k", ⟨[("score", "1")], 100⟩)], "m"⟩ "k" 200 =
      (none, ⟨true, 10, eraseCache [("k", ⟨[("score", "1")], 100⟩)] "k", "m"⟩) ∧
    getCachedResult ⟨true, 10, [("k", ⟨[("score", "1")], 100⟩)], "m"⟩ "k" 105 =
      (some [("score", "1")], ⟨true, 10, [("k", ⟨[("score", "1")], 100⟩)], "m"⟩) :=
  ⟨(c6_get_cached_result_ttl ⟨true, 10, [("k", ⟨[("score", "1")], 100⟩)], "m"⟩ "k"
      ⟨[("score", "1")], 100⟩ 200 rfl rfl).1 (by decide),
   (c6_get_cached_result_ttl ⟨true, 10, [("k", ⟨[("score", "1")], 100⟩)], "m"⟩ "k"
      ⟨[("score", "1")], 100⟩ 105 rfl rfl).2 (by decide)⟩

/-- C2: with `max_retries = N` and every attempt raising a retryable error,
`generate_text` performs exactly `N + 1` attempts before raising, the
backoff delay before the `k`-th retry (1-based) is `retry_delay * k`, the
delay sequence is strictly increasing (for a positive `retry_delay`), and
the call raises the classification of the last error. -/
theorem c2_retry_bound (cfg : AdapterCfg) (modelName : String)
    (e : Nat → RawError) (outcome : Nat → Except RawError String)
    (hfail : ∀ j, outcome j = .error (e j))
    (hretryable : ∀ j,
      isNonRetryable (handleError cfg (e j) "generate_text" modelName) = false) :
    (generateTextAttempts cfg modelName outcome).attempts = cfg.maxRetries + 1 ∧
    (generateTextAttempts cfg modelName outcome).delays =
      backoffSchedule cfg.retryDelay cfg.maxRetries ∧
    (∀ k, k < cfg.maxRetries →
      (generateTextAttempts cfg modelName outcome).delays[k]? =
        some (cfg.retryDelay * ((k : ℚ) + 1))) ∧
    (0 < cfg.retryDelay →
      (generateTextAttempts cfg modelName outcome).delays.Chain' (· < ·)) ∧
    (generateTextAttempts cfg modelName outcome).result =
      .error (handleError cfg (e cfg.maxRetries) "generate_text" modelName) := by
  have hrun : generateTextAttempts cfg modelName outcome =
      ⟨cfg.maxRetries + 1, backoffSchedule cfg.retryDelay cfg.maxRetries,
       .error (handleError cfg (e cfg.maxRetries) "generate_text" modelName)⟩ := by
    have h := retryGo_spec_of_allFail cfg "generate_text" modelName e outcome hfail 0 []
      (Nat.zero_le _)
    simp only [Nat.sub_zero, Nat.cast_zero, zero_add, List.reverse_nil,
      List.nil_append] at h
    unfold generateTextAttempts backoffSchedule
    exact h
  rw [hrun]
  refine ⟨rfl, rfl, ?_, ?_, rfl⟩
  · intro k hk
    simp only [backoffSchedule]
    rw [List.getElem?_map, List.getElem?_range hk]
    rfl
  · intro hd
    apply List.Pairwise.chain'
    unfold backoffSchedule
    apply List.Pairwise.map
    · intro a b hab
      have : (a : ℚ) + 1 < (b : ℚ) + 1 := by
        push_cast
        exact_mod_cast Nat.add_lt_add_right hab 1
      exact (mul_lt_mul_left hd).mpr this
    · exact List.pairwise_lt_range _

/-- Witness for C2: `max_retries = 2`, `retry_delay = 1`, every attempt a
connection error: 3 attempts, delays `[1, 2]`. -/
theorem c2_retry_bound_witness :
    (generateTextAttempts ⟨30, 2, 1⟩ "m"
      (fun _ => (.error (.connection "boom") : Except RawError String))).attempts = 3 ∧
    (generateTextAttempts ⟨30, 2, 1⟩ "m"
      (fun _ => (.error (.connection "boom") : Except RawError String))).delays = backoffSchedule 1 2 := by
  have h := c2_retry_bound ⟨30, 2, 1⟩ "m" (fun _ => .connection "boom")
    (fun _ => (.error (.connection "boom") : Except RawError String)) (fun _ => rfl) (fun _ => rfl)
  exact ⟨h.1, h.2.1⟩

/-- C3 counterexample: the claim says a first-attempt HTTP 401 raises
immediately with zero retries and no sleep.  With the default
configuration (`max_retries = 3`, `retry_delay = 1`) and every attempt
failing with HTTP 401, the loop in fact makes 4 attempts and sleeps three
times (1s, 2s, 3s) before raising the classified authentication error:
the `except` clause catches **every** exception and retries it, without
consulting its kind. -/
theorem c3_counterexample :
    ¬ ((generateTextAttempts ⟨30, 3, 1⟩ "m"
        (fun _ => (.error (.http "Unauthorized" (some 401) [] none) : Except RawError String))).attempts = 1 ∧
       (generateTextAttempts ⟨30, 3, 1⟩ "m"
        (fun _ => (.error (.http "Unauthorized" (some 401) [] none) : Except RawError String))).delays = []) ∧
    (generateTextAttempts ⟨30, 3, 1⟩ "m"
      (fun _ => (.error (.http "Unauthorized" (some 401) [] none) : Except RawError String))).attempts = 4 ∧
    (generateTextAttempts ⟨30, 3, 1⟩ "m"
      (fun _ => (.error (.http "Unauthorized" (some 401) [] none) : Except RawError String))).delays = [1, 2, 3] ∧
    (generateTextAttempts ⟨30, 3, 1⟩ "m"
      (fun _ => (.error (.http "Unauthorized" (some 401) [] none) : Except RawError String))).result =
      .error (.authentication "Authentication error: Unauthorized"
        "generate_text" "m") := by
  have h := retryGo_spec_of_allFail ⟨30, 3, 1⟩ "generate_text" "m"
    (fun _ => .http "Unauthorized" (some 401) [] none)
    (fun _ => (.error (.http "Unauthorized" (some 401) [] none) : Except RawError String))
    (fun _ => rfl) 0 [] (Nat.zero_le _)
  simp only [Nat.sub_zero, Nat.cast_zero, zero_add, List.reverse_nil,
    List.nil_append] at h
  have hrange : List.range (⟨30, 3, 1⟩ : AdapterCfg).maxRetries = [0, 1, 2] := by decide
  rw [hrange] at h
  have hdel : List.map
      (fun k : Nat => (⟨30, 3, 1⟩ : AdapterCfg).retryDelay * ((k : ℚ) + 1))
      [0, 1, 2] = [1, 2, 3] := by norm_num
  rw [hdel] at h
  have hrun : generateTextAttempts ⟨30, 3, 1⟩ "m"
      (fun _ => (.error (.http "Unauthorized" (some 401) [] none) :
        Except RawError String)) =
      ⟨4, [1, 2, 3], .error (.authentication "Authentication error: Unauthorized"
        "generate_text" "m")⟩ := by
    unfold generateTextAttempts
    rw [h]
    rfl
  rw [hrun]
  refine ⟨?_, rfl, rfl, rfl⟩
  intro hcontra
  exact absurd hcontra.1 (by decide)

/-- C3 amended: a non-retryable error kind (Authentication, RateLimit,
ContentFilter) is **not** short-circuited: when every attempt raises such
an error, the adapter still runs the full retry schedule — `max_retries + 1`
attempts with backoff sleeps `retry_delay * k` — and only then raises the
classified error.  (Classification happens only after retries are
exhausted.) -/
theorem c3_nonretryable_still_retried (cfg : AdapterCfg) (modelName : String)
    (e : RawError) (outcome : Nat → Except RawError String)
    (hfail : ∀ j, outcome j = .error e)
    (hnr : isNonRetryable (handleError cfg e "generate_text" modelName) = true) :
    (generateTextAttempts cfg modelName outcome).attempts = cfg.maxRetries + 1 ∧
    (generateTextAttempts cfg modelName outcome).delays =
      backoffSchedule cfg.retryDelay cfg.maxRetries ∧
    (generateTextAttempts cfg modelName outcome).result =
      .error (handleError cfg e "generate_text" modelName) := by
  have hrun : generateTextAttempts cfg modelName outcome =
      ⟨cfg.maxRetries + 1, backoffSchedule cfg.retryDelay cfg.maxRetries,
       .error (handleError cfg e "generate_text" modelName)⟩ := by
    have h := retryGo_spec_of_allFail cfg "generate_text" modelName (fun _ => e) outcome
      hfail 0 [] (Nat.zero_le _)
    simp only [Nat.sub_zero, Nat.cast_zero, zero_add, List.reverse_nil,
      List.nil_append] at h
    unfold generateTextAttempts backoffSchedule
    exact h
  rw [hrun]
  exact ⟨rfl, rfl, rfl⟩

/-- Witness for C3 (amended): every attempt an HTTP 401 with
`max_retries = 3`, `retry_delay = 1`. -/
theorem c3_nonretryable_still_retried_witness :
    (generateTextAttempts ⟨30, 3, 1⟩ "m"
      (fun _ => (.error (.http "Unauthorized" (some 401) [] none) : Except RawError String))).attempts = 4 ∧
    (generateTextAttempts ⟨30, 3, 1⟩ "m"
      (fun _ => (.error (.http "Unauthorized" (some 401) [] none) : Except RawError String))).delays =
      backoffSchedule 1 3 := by
  have h := c3_nonretryable_still_retried ⟨30, 3, 1⟩ "m"
    (.http "Unauthorized" (some 401) [] none)
    (fun _ => (.error (.http "Unauthorized" (some 401) [] none) : Except RawError String))
    (fun _ => rfl) (by decide)
  exact ⟨h.1, h.2.1⟩

/-- C8: the range-validation step of parameter preparation clamps
out-of-range values instead of rejecting them: it is idempotent, a no-op on
already-valid parameter dictionaries, its output always has temperature in
[0,2] and top-p in (0,1] when those keys are present, and the full
`prepare_parameters` pipeline therefore always yields in-range
parameters. -/
theorem c8_clamping_idempotent :
    (∀ p : Params, clampParams (clampParams p) = clampParams p) ∧
    (∀ p : Params, paramsInRangeB p = true → clampParams p = p) ∧
    (∀ p : Params, paramsInRangeB (clampParams p) = true) ∧
    (∀ (user : Option Params) (modelName : Option String),
      paramsInRangeB (prepareParameters user modelName) = true) :=
  ⟨clampParams_idem, clampParams_of_inRange, clampParams_inRange,
   fun user modelName => by unfold prepareParameters; exact clampParams_inRange _⟩

/-- Witness for C8: an in-range dictionary (temperature 3/2, top-p 1/2) is
left unchanged, and clamping an out-of-range one (temperature 5, top-p 0)
twice gives the same as clamping once. -/
theorem c8_clamping_idempotent_witness :
    clampParams ⟨some (3/2), some (1/2), none, none, none, none, none⟩ =
      ⟨some (3/2), some (1/2), none, none, none, none, none⟩ ∧
    clampParams (clampParams ⟨some 5, some 0, none, none, none, none, none⟩) =
      clampParams ⟨some 5, some 0, none, none, none, none, none⟩ :=
  ⟨c8_clamping_idempotent.2.1 _ (by norm_num [paramsInRangeB]),
   c8_clamping_idempotent.1 _⟩

/-- C9 counterexample: the claim requires the messages list to be
**non-empty**, an empty sequence failing validation before any network call.
In fact `prepare_messages` only checks that each entry is a dict with `role`
and `content` keys — the empty list passes vacuously — and the call proceeds
to the network: one attempt is made and it returns normally. -/
theorem c9_counterexample :
    prepareMessages [] none = .ok [] ∧
    generateChatCompletion ⟨30, 3, 1⟩ [] none
      (fun _ => (.ok "resp" : Except RawError String)) =
      .completed ⟨1, [], .ok "resp"⟩ ∧
    chatNetworkAttempts (generateChatCompletion ⟨30, 3, 1⟩ [] none
      (fun _ => (.ok "resp" : Except RawError String))) = 1 :=
  ⟨rfl, rfl, rfl⟩

/-- C9 amended: every entry of `messages` must be a dict with `role` and
`content` keys; a call containing a malformed entry raises `ValueError`
before any network attempt, and a call whose entries are all well-formed
(including the empty list, which is **not** rejected) proceeds to the
request loop. -/
theorem c9_validation_before_network (cfg : AdapterCfg)
    (messages : List MsgEntry) (modelName : Option String)
    (outcome : Nat → Except RawError String) :
    (MsgEntry.malformed ∈ messages →
      generateChatCompletion cfg messages modelName outcome =
        .invalid msgValidationError ∧
      chatNetworkAttempts
        (generateChatCompletion cfg messages modelName outcome) = 0) ∧
    (MsgEntry.malformed ∉ messages →
      ∃ t, generateChatCompletion cfg messages modelName outcome =
        .completed t) := by
  constructor
  · intro hmem
    have hany : messages.any (fun e => e = MsgEntry.malformed) = true := by
      rw [List.any_eq_true]
      exact ⟨MsgEntry.malformed, hmem, by simp⟩
    have hinv : generateChatCompletion cfg messages modelName outcome =
        .invalid msgValidationError := by
      unfold generateChatCompletion prepareMessages
      rw [if_pos hany]
    exact ⟨hinv, by rw [hinv]; rfl⟩
  · intro hmem
    have hany : messages.any (fun e => e = MsgEntry.malformed) = false := by
      rw [List.any_eq_false]
      intro e he
      simp only [decide_eq_true_eq]
      intro heq
      exact hmem (heq ▸ he)
    refine ⟨generateChatAttempts cfg (pyOrStr modelName "default") outcome, ?_⟩
    unfold generateChatCompletion prepareMessages
    rw [if_neg (by simp [hany])]

/-- Witness for C9 (amended): a malformed entry raises before the network,
and a well-formed single message proceeds to the loop. -/
theorem c9_validation_before_network_witness :
    generateChatCompletion ⟨30, 3, 1⟩ [MsgEntry.malformed] none
      (fun _ => (.ok "resp" : Except RawError String)) =
      .invalid msgValidationError ∧
    ∃ t, generateChatCompletion ⟨30, 3, 1⟩ [MsgEntry.msg ⟨"user", "hi"⟩] none
      (fun _ => (.ok "resp" : Except RawError String)) = .completed t :=
  ⟨((c9_validation_before_network ⟨30, 3, 1⟩ [MsgEntry.malformed] none
      (fun _ => (.ok "resp" : Except RawError String))).1 (by decide)).1,
   (c9_validation_before_network ⟨30, 3, 1⟩ [MsgEntry.msg ⟨"user", "hi"⟩] none
      (fun _ => (.ok "resp" : Except RawError String))).2 (by decide)⟩

/-- C10: `prepare_prompt` strips the prompt; when the stripped length does
not exceed 90 percent of the target model context window (default window
4096 characters) the stripped prompt is returned unchanged, and when it
does, the result is the first `⌊0.9 · window⌋` characters with the fixed
truncation note appended. -/
theorem c10_prompt_truncation (prompt : String) (modelName : Option String) :
    (10 * (pyStrip prompt).length ≤
        9 * modelContextWindow (pyOrStr modelName DEFAULT_MODEL) →
      preparePrompt prompt modelName = pyStrip prompt) ∧
    (9 * modelContextWindow (pyOrStr modelName DEFAULT_MODEL) <
        10 * (pyStrip prompt).length →
      preparePrompt prompt modelName =
        String.mk ((pyStrip prompt).data.take
          (9 * modelContextWindow (pyOrStr modelName DEFAULT_MODEL) / 10)) ++
          truncationNote) := by
  constructor
  · intro hle
    unfold preparePrompt
    rw [if_neg (not_lt.mpr hle)]
  · intro hgt
    unfold preparePrompt
    rw [if_pos hgt]

/-- Witness for C10: a short prompt is returned stripped and unchanged; a
4000-character prompt against an unknown model (window 4096) is truncated
to 3686 characters plus the note. -/
theorem c10_prompt_truncation_witness :
    preparePrompt "  hello  " none = pyStrip "  hello  " ∧
    preparePrompt (String.mk (List.replicate 4000 'a')) (some "other-model") =
      String.mk ((pyStrip (String.mk (List.replicate 4000 'a'))).data.take
        (9 * modelContextWindow (pyOrStr (some "other-model") DEFAULT_MODEL) / 10)) ++
        truncationNote := by
  refine ⟨(c10_prompt_truncation "  hello  " none).1 (by decide),
    (c10_prompt_truncation (String.mk (List.replicate 4000 'a'))
      (some "other-model")).2 ?_⟩
  have hstrip : pyStrip (String.mk (List.replicate 4000 'a')) =
      String.mk (List.replicate 4000 'a') := by
    unfold pyStrip
    rw [pyStripList_replicate 4000 'a' rfl]
  rw [hstrip]
  have hlen : (String.mk (List.replicate 4000 'a')).length = 4000 :=
    List.length_replicate 4000 'a'
  rw [hlen]
  decide

end TribeAI
